import Mathlib

/-!
Verification of `vulkan_platform_py` (`src/vulkan_platform_py/__init__.py`).

The module defines four string-valued enumerations (`OperatingSystem`,
`HardwareType`, `HardwareVendor`, `VulkanBackend`, where the value of each
member equals its name), two records (`HardwareInformation`,
`ExecutionPlatform`), and the detection logic
`ExecutionPlatform.auto_detect` together with the accessor
`get_active_hardware` and the `__str__` rendering.

Modelling choices:
* the three hardware probes (`platform.system()`, `GPUtil.getGPUs()`,
  `cpuinfo.get_cpu_info()`) are external collaborators; their raw results
  are passed as explicit arguments;
* fallible operations return `Except PlatformError _`; the `ValueError`
  raised by an enum value lookup such as `OperatingSystem("FreeBSD")` is the
  constructor named after the failing lookup (`UnrecognizedOperatingSystem`,
  `UnrecognizedVendor`), and the `IndexError` raised by `[0]` on an empty
  hardware list in `get_active_hardware` is `NoHardwareDetected`;
* `available_hardware` is a `defaultdict(list)`; it is modelled as an
  insertion-ordered association list, with `__getitem__` inserting an empty
  list under a missing key, and stateful methods return the updated record.
-/

/-- `class OperatingSystem(StrEnum)` with members Linux, Darwin, Windows. -/
inductive OperatingSystem where
  | Linux
  | Darwin
  | Windows
deriving DecidableEq, Repr

/-- The `.value` of a `StrEnum` member: the metaclass replaces each empty
tuple by the name of the member, so the value is the name string. -/
def OperatingSystem.value : OperatingSystem → String
  | .Linux => "Linux"
  | .Darwin => "Darwin"
  | .Windows => "Windows"

/-- Enum lookup by value, `OperatingSystem(s)`: returns the member whose
value is `s`, or fails (`ValueError`) when no member matches. -/
def OperatingSystem.fromValue (s : String) : Option OperatingSystem :=
  if s = "Linux" then some .Linux
  else if s = "Darwin" then some .Darwin
  else if s = "Windows" then some .Windows
  else none

/-- `class HardwareType(StrEnum)` with members CPU, GPU. -/
inductive HardwareType where
  | CPU
  | GPU
deriving DecidableEq, Repr

/-- `class HardwareVendor(StrEnum)` with members GenuineIntel, Nvidia. -/
inductive HardwareVendor where
  | GenuineIntel
  | Nvidia
deriving DecidableEq, Repr

/-- The `.value` of a `HardwareVendor` member (its name). -/
def HardwareVendor.value : HardwareVendor → String
  | .GenuineIntel => "GenuineIntel"
  | .Nvidia => "Nvidia"

/-- Enum lookup by value, `HardwareVendor(s)`. -/
def HardwareVendor.fromValue (s : String) : Option HardwareVendor :=
  if s = "GenuineIntel" then some .GenuineIntel
  else if s = "Nvidia" then some .Nvidia
  else none

/-- `class VulkanBackend(StrEnum)` with members MoltenVK, SwiftShader, Vulkan. -/
inductive VulkanBackend where
  | MoltenVK
  | SwiftShader
  | Vulkan
deriving DecidableEq, Repr

/-- The `.value` of a `VulkanBackend` member (its name). -/
def VulkanBackend.value : VulkanBackend → String
  | .MoltenVK => "MoltenVK"
  | .SwiftShader => "SwiftShader"
  | .Vulkan => "Vulkan"

/-- `@dataclass class HardwareInformation`. -/
structure HardwareInformation where
  hardware_type : HardwareType
  hardware_vendor : HardwareVendor
  hardware_model : String
  driver_version : String
deriving DecidableEq, Repr

/-- The fields of a `GPUtil.GPU` object read by `auto_detect`. -/
structure GPUtilGPU where
  name : String
  driver : String
deriving DecidableEq, Repr

/-- The fields of the `cpuinfo.get_cpu_info()` dict read by `auto_detect`. -/
structure RawCpuInfo where
  vendor_id_raw : String
  brand_raw : String
deriving DecidableEq, Repr

/-- The failure modes of the module: the `ValueError` of the two enum value
lookups and the `IndexError` of `get_active_hardware` on empty lists. -/
inductive PlatformError where
  | UnrecognizedOperatingSystem (s : String)
  | UnrecognizedVendor (s : String)
  | NoHardwareDetected
deriving DecidableEq, Repr

/-- `defaultdict(list)` keyed by `HardwareType`: an insertion-ordered
association list (Python dicts preserve insertion order). -/
structure AvailableHardware where
  entries : List (HardwareType × List HardwareInformation)
deriving DecidableEq, Repr

/-- Plain dict lookup (no default): the value stored under `k`, if present. -/
def lookupKey : List (HardwareType × List HardwareInformation) → HardwareType →
    Option (List HardwareInformation)
  | [], _ => none
  | (k', v) :: rest, k => if k' = k then some v else lookupKey rest k

/-- `d[k] = v` on a dict: replace the value at an existing key in place,
otherwise append the new key at the end. -/
def setKey : List (HardwareType × List HardwareInformation) → HardwareType →
    List HardwareInformation → List (HardwareType × List HardwareInformation)
  | [], k, v => [(k, v)]
  | (k', v') :: rest, k, v =>
      if k' = k then (k, v) :: rest else (k', v') :: setKey rest k v

/-- Plain lookup on the record. -/
def AvailableHardware.lookup (d : AvailableHardware) (k : HardwareType) :
    Option (List HardwareInformation) :=
  lookupKey d.entries k

/-- `defaultdict.__getitem__`: return the stored list, inserting an empty
list under `k` first when the key is missing. Returns the value read and
the (possibly grown) dict. -/
def AvailableHardware.getitem (d : AvailableHardware) (k : HardwareType) :
    List HardwareInformation × AvailableHardware :=
  match lookupKey d.entries k with
  | some v => (v, d)
  | none => ([], ⟨d.entries ++ [(k, [])]⟩)

/-- `d[k].append(x)`: `__getitem__` (inserting `[]` under a missing key)
followed by an in-place append to the stored list. -/
def AvailableHardware.appendItem (d : AvailableHardware) (k : HardwareType)
    (x : HardwareInformation) : AvailableHardware :=
  let p := d.getitem k
  ⟨setKey p.2.entries k (p.1 ++ [x])⟩

/-- `@dataclass class ExecutionPlatform`. In `auto_detect` the record is
built as `cls(vulkan_backend=...)`, so `operating_system` comes from the
default factory `OperatingSystem(platform.system())` and
`available_hardware` from the default factory `defaultdict(list)`. -/
structure ExecutionPlatform where
  vulkan_backend : VulkanBackend
  operating_system : OperatingSystem
  available_hardware : AvailableHardware
deriving DecidableEq, Repr

/-- The `HardwareInformation` built for one probed GPU:
`HardwareInformation(HardwareType.GPU, HardwareVendor.Nvidia, gpu.name, gpu.driver)`. -/
def gpuInfoOf (g : GPUtilGPU) : HardwareInformation :=
  ⟨.GPU, .Nvidia, g.name, g.driver⟩

/-- The `for nvidia_gpu in nvidia_gpus` loop of `auto_detect`: append one
GPU `HardwareInformation` per probed GPU, in probe order. -/
def addGpus (ep : ExecutionPlatform) (gpus : List GPUtilGPU) : ExecutionPlatform :=
  gpus.foldl
    (fun e g =>
      { e with available_hardware := e.available_hardware.appendItem .GPU (gpuInfoOf g) })
    ep

/-- `ExecutionPlatform.auto_detect`, with the three probe results passed
explicitly: `osProbe` is `platform.system()` (consumed by the
`operating_system` default factory), `gpus` is `GPUtil.getGPUs()`, and
`raw_cpu_info` is `cpuinfo.get_cpu_info()`. -/
def ExecutionPlatform.auto_detect (osProbe : String) (gpus : List GPUtilGPU)
    (raw_cpu_info : RawCpuInfo) : Except PlatformError ExecutionPlatform :=
  match OperatingSystem.fromValue osProbe with
  | none => .error (.UnrecognizedOperatingSystem osProbe)
  | some os =>
    let execution_platform : ExecutionPlatform := ⟨.Vulkan, os, ⟨[]⟩⟩
    let afterGpus := addGpus execution_platform gpus
    match HardwareVendor.fromValue raw_cpu_info.vendor_id_raw with
    | none => .error (.UnrecognizedVendor raw_cpu_info.vendor_id_raw)
    | some vendor =>
      let cpu_info : HardwareInformation :=
        ⟨.CPU, vendor, raw_cpu_info.brand_raw, "N/A"⟩
      let afterCpu :=
        { afterGpus with
            available_hardware := afterGpus.available_hardware.appendItem .CPU cpu_info }
      let backend :=
        if afterCpu.operating_system = .Darwin then VulkanBackend.MoltenVK
        else if afterCpu.operating_system = .Linux then VulkanBackend.Vulkan
        else afterCpu.vulkan_backend
      .ok { afterCpu with vulkan_backend := backend }

/-- `ExecutionPlatform.get_active_hardware`: first GPU entry when the GPU
list is non-empty, otherwise the first CPU entry; `[0]` on an empty list
raises (`NoHardwareDetected`). Both reads go through `defaultdict` lookup,
so the updated record is returned alongside the result. -/
def ExecutionPlatform.get_active_hardware (ep : ExecutionPlatform) :
    Except PlatformError HardwareInformation × ExecutionPlatform :=
  let p1 := ep.available_hardware.getitem .GPU
  match p1.1 with
  | g :: _ => (.ok g, { ep with available_hardware := p1.2 })
  | [] =>
    let p2 := p1.2.getitem .CPU
    match p2.1 with
    | c :: _ => (.ok c, { ep with available_hardware := p2.2 })
    | [] => (.error .NoHardwareDetected, { ep with available_hardware := p2.2 })

/-- `ExecutionPlatform.__str__`:
`f"{os.value}/{get_active_hardware().hardware_vendor.value}/{backend.value}"`.
Propagates the failure of `get_active_hardware` and its dict growth. -/
def ExecutionPlatform.str (ep : ExecutionPlatform) :
    Except PlatformError String × ExecutionPlatform :=
  match ep.get_active_hardware with
  | (.ok h, ep') =>
      (.ok (ep.operating_system.value ++ "/" ++ h.hardware_vendor.value ++ "/"
            ++ ep.vulkan_backend.value), ep')
  | (.error e, ep') => (.error e, ep')

/-- A platform with no detected hardware at all (empty dict). -/
def emptyPlatform : ExecutionPlatform := ⟨.Vulkan, .Linux, ⟨[]⟩⟩

/-- A platform with only a CPU entry. -/
def cpuPlatform : ExecutionPlatform :=
  ⟨.Vulkan, .Linux, ⟨[(.CPU, [⟨.CPU, .GenuineIntel, "i9", "N/A"⟩])]⟩⟩

/-- A Darwin platform with one Nvidia GPU entry and the MoltenVK backend. -/
def gpuPlatform : ExecutionPlatform :=
  ⟨.MoltenVK, .Darwin, ⟨[(.GPU, [⟨.GPU, .Nvidia, "RTX 3090", "510.60"⟩])]⟩⟩

/-- The platform produced by `auto_detect` on Darwin with no GPUs and a
GenuineIntel CPU. -/
def darwinDetected : ExecutionPlatform :=
  ⟨.MoltenVK, .Darwin, ⟨[(.CPU, [⟨.CPU, .GenuineIntel, "Intel Core i9", "N/A"⟩])]⟩⟩

/-- The platform produced by `auto_detect` on Linux with two GPUs and a
GenuineIntel CPU. -/
def twoGpuDetected : ExecutionPlatform :=
  ⟨.Vulkan, .Linux,
   ⟨[(.GPU, [⟨.GPU, .Nvidia, "RTX 3090", "510.60"⟩,
             ⟨.GPU, .Nvidia, "RTX 4090", "520.01"⟩]),
     (.CPU, [⟨.CPU, .GenuineIntel, "Intel Core i9", "N/A"⟩])]⟩⟩

/-- The platform produced by `auto_detect` on Linux with no GPUs and a CPU
whose probed vendor string is "Nvidia". -/
def nvidiaCpuPlatform : ExecutionPlatform :=
  ⟨.Vulkan, .Linux, ⟨[(.CPU, [⟨.CPU, .Nvidia, "Grace", "N/A"⟩])]⟩⟩

lemma lookupKey_append_of_none {es : List (HardwareType × List HardwareInformation)}
    (fs : List (HardwareType × List HardwareInformation)) {k : HardwareType}
    (h : lookupKey es k = none) : lookupKey (es ++ fs) k = lookupKey fs k := by
  induction es with
  | nil => rfl
  | cons p rest ih =>
    obtain ⟨a, w⟩ := p
    by_cases ha : a = k
    · simp [lookupKey, ha] at h
    · simp only [lookupKey, ha, if_false] at h
      simpa [lookupKey, ha] using ih h

lemma lookupKey_append_of_some {es : List (HardwareType × List HardwareInformation)}
    (fs : List (HardwareType × List HardwareInformation)) {k : HardwareType}
    {v : List HardwareInformation} (h : lookupKey es k = some v) :
    lookupKey (es ++ fs) k = some v := by
  induction es with
  | nil => simp [lookupKey] at h
  | cons p rest ih =>
    obtain ⟨a, w⟩ := p
    by_cases ha : a = k
    · simp only [lookupKey, ha, if_true] at h ⊢
      simpa [lookupKey, ha] using h
    · simp only [lookupKey, ha, if_false] at h
      simpa [lookupKey, ha] using ih h

lemma lookupKey_setKey_self (es : List (HardwareType × List HardwareInformation))
    (k : HardwareType) (v : List HardwareInformation) :
    lookupKey (setKey es k v) k = some v := by
  induction es with
  | nil => simp [setKey, lookupKey]
  | cons p rest ih =>
    obtain ⟨a, w⟩ := p
    by_cases ha : a = k <;> simp [setKey, lookupKey, ha, ih]

lemma lookupKey_setKey_ne (es : List (HardwareType × List HardwareInformation))
    (k : HardwareType) (v : List HardwareInformation) (k' : HardwareType)
    (hne : k' ≠ k) : lookupKey (setKey es k v) k' = lookupKey es k' := by
  induction es with
  | nil => simp [setKey, lookupKey, Ne.symm hne]
  | cons p rest ih =>
    obtain ⟨a, w⟩ := p
    by_cases ha : a = k
    · subst ha
      simp [setKey, lookupKey, Ne.symm hne, hne]
    · simp [setKey, lookupKey, ha, ih]

lemma AvailableHardware.lookup_getitem_fst (d : AvailableHardware) (k : HardwareType) :
    (d.getitem k).1 = (d.lookup k).getD [] := by
  rcases h : lookupKey d.entries k with _ | v <;>
    simp [AvailableHardware.getitem, AvailableHardware.lookup, h]

lemma AvailableHardware.lookup_getitem_self (d : AvailableHardware) (k : HardwareType) :
    (d.getitem k).2.lookup k = some ((d.lookup k).getD []) := by
  rcases h : lookupKey d.entries k with _ | v <;>
    simp only [AvailableHardware.getitem, AvailableHardware.lookup, h, Option.getD]
  rw [lookupKey_append_of_none _ h]
  simp [lookupKey]

lemma AvailableHardware.lookup_getitem_mono (d : AvailableHardware) (k : HardwareType)
    {k' : HardwareType} {l : List HardwareInformation} (h : d.lookup k' = some l) :
    (d.getitem k).2.lookup k' = some l := by
  rcases hk : lookupKey d.entries k with _ | v
  · simp only [AvailableHardware.getitem, hk, AvailableHardware.lookup] at h ⊢
    exact lookupKey_append_of_some _ h
  · simpa [AvailableHardware.getitem, hk] using h

lemma AvailableHardware.lookup_getitem_ne (d : AvailableHardware) (k k' : HardwareType)
    (hne : k' ≠ k) : (d.getitem k).2.lookup k' = d.lookup k' := by
  rcases hk : lookupKey d.entries k with _ | v
  · simp only [AvailableHardware.getitem, hk, AvailableHardware.lookup]
    rcases h' : lookupKey d.entries k' with _ | v'
    · rw [lookupKey_append_of_none _ h']
      simp [lookupKey, Ne.symm hne]
    · exact lookupKey_append_of_some _ h'
  · simp [AvailableHardware.getitem, hk]

lemma AvailableHardware.lookup_appendItem_self (d : AvailableHardware)
    (k : HardwareType) (x : HardwareInformation) :
    (d.appendItem k x).lookup k = some ((d.lookup k).getD [] ++ [x]) := by
  simp only [AvailableHardware.appendItem, AvailableHardware.lookup]
  rw [lookupKey_setKey_self, AvailableHardware.lookup_getitem_fst]
  rfl

lemma AvailableHardware.lookup_appendItem_ne (d : AvailableHardware)
    (k : HardwareType) (x : HardwareInformation) (k' : HardwareType)
    (hne : k' ≠ k) : (d.appendItem k x).lookup k' = d.lookup k' := by
  simp only [AvailableHardware.appendItem, AvailableHardware.lookup]
  rw [lookupKey_setKey_ne _ _ _ _ hne]
  exact AvailableHardware.lookup_getitem_ne d k k' hne

lemma addGpus_cons (ep : ExecutionPlatform) (g : GPUtilGPU) (gs : List GPUtilGPU) :
    addGpus ep (g :: gs) =
      addGpus
        { ep with available_hardware := ep.available_hardware.appendItem .GPU (gpuInfoOf g) }
        gs := rfl

lemma addGpus_operating_system (ep : ExecutionPlatform) (gpus : List GPUtilGPU) :
    (addGpus ep gpus).operating_system = ep.operating_system := by
  induction gpus generalizing ep with
  | nil => rfl
  | cons g gs ih => rw [addGpus_cons, ih]

lemma addGpus_vulkan_backend (ep : ExecutionPlatform) (gpus : List GPUtilGPU) :
    (addGpus ep gpus).vulkan_backend = ep.vulkan_backend := by
  induction gpus generalizing ep with
  | nil => rfl
  | cons g gs ih => rw [addGpus_cons, ih]

lemma addGpus_lookup_cpu (ep : ExecutionPlatform) (gpus : List GPUtilGPU) :
    (addGpus ep gpus).available_hardware.lookup .CPU =
      ep.available_hardware.lookup .CPU := by
  induction gpus generalizing ep with
  | nil => rfl
  | cons g gs ih =>
    rw [addGpus_cons, ih]
    exact AvailableHardware.lookup_appendItem_ne _ _ _ _ (by decide)

lemma addGpus_lookup_gpu (ep : ExecutionPlatform) (gpus : List GPUtilGPU) :
    ((addGpus ep gpus).available_hardware.lookup .GPU).getD [] =
      (ep.available_hardware.lookup .GPU).getD [] ++ gpus.map gpuInfoOf := by
  induction gpus generalizing ep with
  | nil => simp [addGpus]
  | cons g gs ih =>
    rw [addGpus_cons, ih]
    simp [AvailableHardware.lookup_appendItem_self]

/-- Everything a successful `auto_detect` run guarantees about its result:
the two enum lookups succeeded, the operating system field is the parsed
one, the backend follows the Darwin/Linux/default rule, the CPU list is the
singleton built from the CPU probe, and the GPU list is the probe-reported
list in order. -/
lemma auto_detect_ok_elim {osProbe : String} {gpus : List GPUtilGPU}
    {cpu : RawCpuInfo} {ep : ExecutionPlatform}
    (h : ExecutionPlatform.auto_detect osProbe gpus cpu = .ok ep) :
    ∃ os vendor,
      OperatingSystem.fromValue osProbe = some os ∧
      HardwareVendor.fromValue cpu.vendor_id_raw = some vendor ∧
      ep.operating_system = os ∧
      ep.vulkan_backend = (if os = .Darwin then .MoltenVK else .Vulkan) ∧
      ep.available_hardware.lookup .CPU =
        some [⟨.CPU, vendor, cpu.brand_raw, "N/A"⟩] ∧
      (ep.available_hardware.lookup .GPU).getD [] = gpus.map gpuInfoOf := by
  rcases hos : OperatingSystem.fromValue osProbe with _ | os
  · simp [ExecutionPlatform.auto_detect, hos] at h
  rcases hv : HardwareVendor.fromValue cpu.vendor_id_raw with _ | v
  · simp [ExecutionPlatform.auto_detect, hos, hv] at h
  refine ⟨os, v, rfl, rfl, ?_, ?_, ?_, ?_⟩ <;>
    simp only [ExecutionPlatform.auto_detect, hos, hv, Except.ok.injEq] at h <;>
    rw [← h]
  · exact addGpus_operating_system _ _
  · rw [addGpus_operating_system]
    rcases os with _ | _ | _ <;> simp [addGpus_vulkan_backend]
  · rw [AvailableHardware.lookup_appendItem_self, addGpus_lookup_cpu]
    rfl
  · rw [AvailableHardware.lookup_appendItem_ne _ _ _ _ (by decide),
      addGpus_lookup_gpu]
    rfl

/-- Claim C1: for every accepted operating system, a successful
`auto_detect` yields the backend given by the fixed rule: Darwin yields
MoltenVK, Linux yields Vulkan, and Windows (no override case) retains the
pre-set default Vulkan. -/
theorem auto_detect_backend_rule (osProbe : String) (gpus : List GPUtilGPU)
    (cpu : RawCpuInfo) (ep : ExecutionPlatform)
    (h : ExecutionPlatform.auto_detect osProbe gpus cpu = .ok ep) :
    (ep.operating_system = .Darwin → ep.vulkan_backend = .MoltenVK) ∧
    (ep.operating_system = .Linux → ep.vulkan_backend = .Vulkan) ∧
    (ep.operating_system = .Windows → ep.vulkan_backend = .Vulkan) := by
  obtain ⟨os, v, _, _, hosEq, hbk, _, _⟩ := auto_detect_ok_elim h
  subst hosEq
  refine ⟨?_, ?_, ?_⟩ <;> intro hx <;> simp [hbk, hx]

theorem auto_detect_backend_rule_witness :
    ExecutionPlatform.auto_detect "Darwin" [] ⟨"GenuineIntel", "Intel Core i9"⟩ =
      .ok darwinDetected ∧
    darwinDetected.vulkan_backend = .MoltenVK :=
  ⟨rfl,
   (auto_detect_backend_rule "Darwin" [] ⟨"GenuineIntel", "Intel Core i9"⟩
      darwinDetected rfl).1 rfl⟩

/-- Claim C2: `get_active_hardware` returns the first entry of the GPU list
whenever that list is non-empty (regardless of CPU presence), and returns
the first entry of the CPU list whenever the GPU list is empty and the CPU
list is non-empty. -/
theorem get_active_hardware_first (ep : ExecutionPlatform)
    (g c : HardwareInformation) (gs cs : List HardwareInformation) :
    ((ep.available_hardware.lookup .GPU).getD [] = g :: gs →
      (ep.get_active_hardware).1 = .ok g) ∧
    ((ep.available_hardware.lookup .GPU).getD [] = [] →
      (ep.available_hardware.lookup .CPU).getD [] = c :: cs →
      (ep.get_active_hardware).1 = .ok c) := by
  constructor
  · intro hg
    have h1 : (ep.available_hardware.getitem .GPU).1 = g :: gs :=
      (AvailableHardware.lookup_getitem_fst _ _).trans hg
    simp [ExecutionPlatform.get_active_hardware, h1]
  · intro hg hc
    have h1 : (ep.available_hardware.getitem .GPU).1 = [] :=
      (AvailableHardware.lookup_getitem_fst _ _).trans (by rw [hg])
    have h2 : ((ep.available_hardware.getitem .GPU).2.getitem .CPU).1 = c :: cs := by
      rw [AvailableHardware.lookup_getitem_fst,
        AvailableHardware.lookup_getitem_ne _ _ _ (by decide), hc]
    simp [ExecutionPlatform.get_active_hardware, h1, h2]

theorem get_active_hardware_first_witness :
    (gpuPlatform.get_active_hardware).1 = .ok ⟨.GPU, .Nvidia, "RTX 3090", "510.60"⟩ ∧
    (cpuPlatform.get_active_hardware).1 = .ok ⟨.CPU, .GenuineIntel, "i9", "N/A"⟩ :=
  ⟨(get_active_hardware_first gpuPlatform ⟨.GPU, .Nvidia, "RTX 3090", "510.60"⟩
      ⟨.CPU, .GenuineIntel, "i9", "N/A"⟩ [] []).1 rfl,
   (get_active_hardware_first cpuPlatform ⟨.GPU, .Nvidia, "RTX 3090", "510.60"⟩
      ⟨.CPU, .GenuineIntel, "i9", "N/A"⟩ [] []).2 rfl rfl⟩

/-- Claim C3, counterexample: the probed vendor string "Nvidia" differs
from "GenuineIntel", yet CPU classification accepts it (the enum lookup
finds the Nvidia member) and `auto_detect` succeeds rather than failing
with UnrecognizedVendor. -/
theorem cpu_vendor_nvidia_accepted :
    HardwareVendor.fromValue "Nvidia" = some .Nvidia ∧
    ExecutionPlatform.auto_detect "Linux" [] ⟨"Nvidia", "Grace"⟩ =
      .ok nvidiaCpuPlatform :=
  ⟨rfl, rfl⟩

/-- Claim C3, amended: for every CPU-probe vendor identifier string that is
neither "GenuineIntel" nor "Nvidia", the CPU classification step of
`auto_detect` fails with the UnrecognizedVendor error. -/
theorem unrecognized_vendor_fails (osProbe : String) (os : OperatingSystem)
    (gpus : List GPUtilGPU) (cpu : RawCpuInfo)
    (hos : OperatingSystem.fromValue osProbe = some os)
    (h1 : cpu.vendor_id_raw ≠ "GenuineIntel") (h2 : cpu.vendor_id_raw ≠ "Nvidia") :
    ExecutionPlatform.auto_detect osProbe gpus cpu =
      .error (.UnrecognizedVendor cpu.vendor_id_raw) := by
  have hv : HardwareVendor.fromValue cpu.vendor_id_raw = none := by
    unfold HardwareVendor.fromValue
    rw [if_neg h1, if_neg h2]
  simp [ExecutionPlatform.auto_detect, hos, hv]

theorem unrecognized_vendor_fails_witness :
    ExecutionPlatform.auto_detect "Linux" [] ⟨"AuthenticAMD", "Ryzen 9"⟩ =
      .error (.UnrecognizedVendor "AuthenticAMD") :=
  unrecognized_vendor_fails "Linux" .Linux [] ⟨"AuthenticAMD", "Ryzen 9"⟩ rfl
    (by decide) (by decide)

/-- Claim C4: when both the GPU list and the CPU list are empty,
`get_active_hardware` fails with the NoHardwareDetected error. -/
theorem get_active_hardware_no_hardware (ep : ExecutionPlatform)
    (hg : (ep.available_hardware.lookup .GPU).getD [] = [])
    (hc : (ep.available_hardware.lookup .CPU).getD [] = []) :
    (ep.get_active_hardware).1 = .error .NoHardwareDetected := by
  have h1 : (ep.available_hardware.getitem .GPU).1 = [] :=
    (AvailableHardware.lookup_getitem_fst _ _).trans (by rw [hg])
  have h2 : ((ep.available_hardware.getitem .GPU).2.getitem .CPU).1 = [] := by
    rw [AvailableHardware.lookup_getitem_fst,
      AvailableHardware.lookup_getitem_ne _ _ _ (by decide), hc]
  simp [ExecutionPlatform.get_active_hardware, h1, h2]

theorem get_active_hardware_no_hardware_witness :
    (emptyPlatform.get_active_hardware).1 = .error .NoHardwareDetected :=
  get_active_hardware_no_hardware emptyPlatform rfl rfl

/-- Claim C5: every successful `auto_detect` run returns a platform whose
CPU hardware list contains exactly one entry, while its GPU list equals the
probe-reported list (possibly empty). -/
theorem auto_detect_cpu_singleton (osProbe : String) (gpus : List GPUtilGPU)
    (cpu : RawCpuInfo) (ep : ExecutionPlatform)
    (h : ExecutionPlatform.auto_detect osProbe gpus cpu = .ok ep) :
    ((ep.available_hardware.lookup .CPU).getD []).length = 1 ∧
    (ep.available_hardware.lookup .GPU).getD [] = gpus.map gpuInfoOf := by
  obtain ⟨os, v, _, _, _, _, hcpu, hgpu⟩ := auto_detect_ok_elim h
  exact ⟨by rw [hcpu]; rfl, hgpu⟩

theorem auto_detect_cpu_singleton_witness :
    ((darwinDetected.available_hardware.lookup .CPU).getD []).length = 1 ∧
    (darwinDetected.available_hardware.lookup .GPU).getD [] =
      List.map gpuInfoOf [] :=
  auto_detect_cpu_singleton "Darwin" [] ⟨"GenuineIntel", "Intel Core i9"⟩
    darwinDetected rfl

/-- Claim C6: when `get_active_hardware` succeeds, the canonical string
rendering equals the operating system, the vendor of the active hardware,
and the vulkan backend joined by the slash separator in that fixed order. -/
theorem str_canonical (ep ep' : ExecutionPlatform) (h : HardwareInformation)
    (hga : ep.get_active_hardware = (.ok h, ep')) :
    (ep.str).1 =
      .ok (ep.operating_system.value ++ "/" ++ h.hardware_vendor.value ++ "/"
           ++ ep.vulkan_backend.value) := by
  simp [ExecutionPlatform.str, hga]

theorem str_canonical_witness :
    (gpuPlatform.str).1 = .ok "Darwin/Nvidia/MoltenVK" :=
  str_canonical gpuPlatform gpuPlatform ⟨.GPU, .Nvidia, "RTX 3090", "510.60"⟩ rfl

/-- Claim C7: `auto_detect` constructs one GPU `HardwareInformation` per
probe-reported GPU, with hardware type GPU, vendor Nvidia, the reported
model name and driver version, in probe-reported order; an empty probe
result is not an error. -/
theorem auto_detect_gpu_entries (osProbe : String) (gpus : List GPUtilGPU)
    (cpu : RawCpuInfo) (ep : ExecutionPlatform)
    (h : ExecutionPlatform.auto_detect osProbe gpus cpu = .ok ep) :
    (ep.available_hardware.lookup .GPU).getD [] =
      gpus.map (fun g => ⟨.GPU, .Nvidia, g.name, g.driver⟩) ∧
    ∃ ep0, ExecutionPlatform.auto_detect osProbe [] cpu = .ok ep0 := by
  obtain ⟨os, v, hos, hv, _, _, _, hgpu⟩ := auto_detect_ok_elim h
  refine ⟨hgpu, ?_⟩
  refine ⟨{ vulkan_backend :=
              if os = .Darwin then .MoltenVK
              else if os = .Linux then .Vulkan else .Vulkan,
            operating_system := os,
            available_hardware := ⟨[(.CPU, [⟨.CPU, v, cpu.brand_raw, "N/A"⟩])]⟩ }, ?_⟩
  unfold ExecutionPlatform.auto_detect
  rw [hos, hv]
  rfl

theorem auto_detect_gpu_entries_witness :
    (twoGpuDetected.available_hardware.lookup .GPU).getD [] =
      List.map (fun g => ⟨.GPU, .Nvidia, g.name, g.driver⟩)
        ([⟨"RTX 3090", "510.60"⟩, ⟨"RTX 4090", "520.01"⟩] : List GPUtilGPU) ∧
    ∃ ep0, ExecutionPlatform.auto_detect "Linux" []
        ⟨"GenuineIntel", "Intel Core i9"⟩ = .ok ep0 :=
  auto_detect_gpu_entries "Linux" [⟨"RTX 3090", "510.60"⟩, ⟨"RTX 4090", "520.01"⟩]
    ⟨"GenuineIntel", "Intel Core i9"⟩ twoGpuDetected rfl

/-- Claim C8: detection accepts an OS-probe string exactly when it is one
of Linux, Darwin, Windows (matched exactly), and `auto_detect` fails with
the UnrecognizedOperatingSystem error on every other string. -/
theorem os_probe_acceptance (s : String) (gpus : List GPUtilGPU)
    (cpu : RawCpuInfo) :
    ((OperatingSystem.fromValue s).isSome ↔
      s = "Linux" ∨ s = "Darwin" ∨ s = "Windows") ∧
    (OperatingSystem.fromValue s = none →
      ExecutionPlatform.auto_detect s gpus cpu =
        .error (.UnrecognizedOperatingSystem s)) := by
  constructor
  · constructor
    · intro hs
      by_cases h1 : s = "Linux"
      · exact Or.inl h1
      by_cases h2 : s = "Darwin"
      · exact Or.inr (Or.inl h2)
      by_cases h3 : s = "Windows"
      · exact Or.inr (Or.inr h3)
      simp [OperatingSystem.fromValue, h1, h2, h3] at hs
    · rintro (rfl | rfl | rfl) <;> rfl
  · intro hn
    simp [ExecutionPlatform.auto_detect, hn]

theorem os_probe_acceptance_witness :
    ExecutionPlatform.auto_detect "FreeBSD" [] ⟨"GenuineIntel", "i9"⟩ =
      .error (.UnrecognizedOperatingSystem "FreeBSD") :=
  (os_probe_acceptance "FreeBSD" [] ⟨"GenuineIntel", "i9"⟩).2 rfl

/-- Claim C9: every entry of the CPU list of a platform returned by a
successful `auto_detect` run has driver version "N/A". -/
theorem cpu_driver_version_na (osProbe : String) (gpus : List GPUtilGPU)
    (cpu : RawCpuInfo) (ep : ExecutionPlatform)
    (h : ExecutionPlatform.auto_detect osProbe gpus cpu = .ok ep) :
    ∀ info ∈ (ep.available_hardware.lookup .CPU).getD [],
      info.driver_version = "N/A" := by
  obtain ⟨os, v, _, _, _, _, hcpu, _⟩ := auto_detect_ok_elim h
  rw [hcpu]
  intro info hinfo
  have hi : info = ⟨.CPU, v, cpu.brand_raw, "N/A"⟩ := by simpa using hinfo
  rw [hi]

theorem cpu_driver_version_na_witness :
    (⟨.CPU, .GenuineIntel, "Intel Core i9", "N/A"⟩ : HardwareInformation).driver_version
      = "N/A" :=
  cpu_driver_version_na "Darwin" [] ⟨"GenuineIntel", "Intel Core i9"⟩
    darwinDetected rfl ⟨.CPU, .GenuineIntel, "Intel Core i9", "N/A"⟩ (by decide)

/-- Claim C10: `get_active_hardware` inserts an empty list under the GPU
key when that key is absent (and, when the GPU list is empty, under the CPU
key when that key is absent), so the read accessor can grow the key set of
the mapping; every binding already stored is left unchanged. -/
theorem get_active_hardware_frame (ep : ExecutionPlatform) :
    (ep.available_hardware.lookup .GPU = none →
      (ep.get_active_hardware).2.available_hardware.lookup .GPU = some []) ∧
    ((ep.available_hardware.lookup .GPU).getD [] = [] →
      ep.available_hardware.lookup .CPU = none →
      (ep.get_active_hardware).2.available_hardware.lookup .CPU = some []) ∧
    (∀ k l, ep.available_hardware.lookup k = some l →
      (ep.get_active_hardware).2.available_hardware.lookup k = some l) := by
  refine ⟨?_, ?_, ?_⟩
  · intro hnone
    have h1 : (ep.available_hardware.getitem .GPU).1 = [] := by
      rw [AvailableHardware.lookup_getitem_fst, hnone]
      rfl
    have hG : (ep.available_hardware.getitem .GPU).2.lookup .GPU = some [] := by
      rw [AvailableHardware.lookup_getitem_self, hnone]
      rfl
    have hG2 : ((ep.available_hardware.getitem .GPU).2.getitem .CPU).2.lookup .GPU
        = some [] :=
      AvailableHardware.lookup_getitem_mono _ _ hG
    rcases h2 : ((ep.available_hardware.getitem .GPU).2.getitem .CPU).1 with _ | ⟨c, cs⟩ <;>
      simp [ExecutionPlatform.get_active_hardware, h1, h2] <;> assumption
  · intro hg hc
    have h1 : (ep.available_hardware.getitem .GPU).1 = [] :=
      (AvailableHardware.lookup_getitem_fst _ _).trans (by rw [hg])
    have hCnone : (ep.available_hardware.getitem .GPU).2.lookup .CPU = none := by
      rw [AvailableHardware.lookup_getitem_ne _ _ _ (by decide)]
      exact hc
    have h2 : ((ep.available_hardware.getitem .GPU).2.getitem .CPU).1 = [] := by
      rw [AvailableHardware.lookup_getitem_fst, hCnone]
      rfl
    have hC : ((ep.available_hardware.getitem .GPU).2.getitem .CPU).2.lookup .CPU
        = some [] := by
      rw [AvailableHardware.lookup_getitem_self, hCnone]
      rfl
    simp [ExecutionPlatform.get_active_hardware, h1, h2]
    exact hC
  · intro k l hkl
    have m1 : (ep.available_hardware.getitem .GPU).2.lookup k = some l :=
      AvailableHardware.lookup_getitem_mono _ _ hkl
    have m2 : ((ep.available_hardware.getitem .GPU).2.getitem .CPU).2.lookup k
        = some l :=
      AvailableHardware.lookup_getitem_mono _ _ m1
    rcases h1 : (ep.available_hardware.getitem .GPU).1 with _ | ⟨g, gs⟩
    · rcases h2 : ((ep.available_hardware.getitem .GPU).2.getitem .CPU).1 with _ | ⟨c, cs⟩ <;>
        simp [ExecutionPlatform.get_active_hardware, h1, h2] <;> exact m2
    · simp [ExecutionPlatform.get_active_hardware, h1]
      exact m1

theorem get_active_hardware_frame_witness :
    (emptyPlatform.get_active_hardware).2.available_hardware.lookup .GPU = some [] ∧
    (emptyPlatform.get_active_hardware).2.available_hardware.lookup .CPU = some [] ∧
    (cpuPlatform.get_active_hardware).2.available_hardware.lookup .CPU =
      some [⟨.CPU, .GenuineIntel, "i9", "N/A"⟩] :=
  ⟨(get_active_hardware_frame emptyPlatform).1 rfl,
   (get_active_hardware_frame emptyPlatform).2.1 rfl rfl,
   (get_active_hardware_frame cpuPlatform).2.2 .CPU
     [⟨.CPU, .GenuineIntel, "i9", "N/A"⟩] rfl⟩
